import Mathlib

/-!
Verification of the fitness-tracker module (`homework.py`).

Shallow embedding conventions:
* Python floats are modelled as exact rationals (`ℚ`); every arithmetic
  operation of the source is `+`, `*`, `/`, `**` on numbers, so the formulas
  carry over literally (decimal literals such as `0.65` are exact in `ℚ`).
* Python division `a / b` raises `ZeroDivisionError` when `b = 0`, so each
  division whose divisor is a runtime value is embedded as `pyDiv` in the
  `Except PyExc` monad.  Division by the nonzero class constants
  `M_IN_KM = 1000` and `CM_IN_M = 100` can never raise and is embedded as
  plain field division.
* The class hierarchy `Training` / `Running` / `SportsWalking` / `Swimming`
  is embedded as the sum type `Workout`; an unspecialized base instance is
  the constructor `Workout.training`.  Dynamic dispatch on `LEN_STEP`,
  `get_mean_speed` and `get_spent_calories` becomes a `match` on the variant.
* Exceptions are the inductive `PyExc`; `InvalidInputDataError(err)` is the
  constructor `PyExc.invalidInputDataError` wrapping its cause.
-/

/-- Python exception values that the module can raise. -/
inductive PyExc where
  | zeroDivisionError : PyExc
  | notImplementedError : PyExc
  | keyError (key : String) : PyExc
  | typeError (msg : String) : PyExc
  | invalidInputDataError (cause : PyExc) : PyExc
deriving DecidableEq, Repr

/-- Is the exception an instance of the `InvalidInputDataError` class?
(`NotImplementedError`, `KeyError`, `TypeError`, `ZeroDivisionError` are
builtin exception classes unrelated to `InvalidInputDataError`.) -/
def PyExc.isInvalidInputDataError : PyExc → Bool
  | .invalidInputDataError _ => true
  | _ => false

/-- Python division: raises `ZeroDivisionError` on a zero divisor. -/
def pyDiv (a b : ℚ) : Except PyExc ℚ :=
  if b = 0 then .error .zeroDivisionError else .ok (a / b)

/-- The class hierarchy rooted at `Training`, as a sum type.
`training` is an unspecialized base-class instance. -/
inductive Workout where
  | training (action duration weight : ℚ)
  | running (action duration weight : ℚ)
  | sportsWalking (action duration weight height : ℚ)
  | swimming (action duration weight length_pool count_pool : ℚ)
deriving DecidableEq, Repr

namespace Workout

/-- Field `self.action` (shared by all classes). -/
def action : Workout → ℚ
  | .training a _ _ => a
  | .running a _ _ => a
  | .sportsWalking a _ _ _ => a
  | .swimming a _ _ _ _ => a

/-- Field `self.duration` (shared by all classes). -/
def duration : Workout → ℚ
  | .training _ d _ => d
  | .running _ d _ => d
  | .sportsWalking _ d _ _ => d
  | .swimming _ d _ _ _ => d

/-- Field `self.weight` (shared by all classes). -/
def weight : Workout → ℚ
  | .training _ _ w => w
  | .running _ _ w => w
  | .sportsWalking _ _ w _ => w
  | .swimming _ _ w _ _ => w

/-- Class attribute `LEN_STEP`: `0.65` on `Training` (inherited by
`Running` and `SportsWalking`), overridden to `1.38` on `Swimming`. -/
def LEN_STEP : Workout → ℚ
  | .swimming _ _ _ _ _ => 1.38
  | _ => 0.65

/-- Class attribute `Training.M_IN_KM = 1000`. -/
def M_IN_KM : ℚ := 1000

/-- Class attribute `Training.MIN_IN_H = 60`. -/
def MIN_IN_H : ℚ := 60

/-- `Training.get_distance`: `self.action * self.LEN_STEP / self.M_IN_KM`
(pure: the divisor is the constant 1000). -/
def get_distance (w : Workout) : ℚ :=
  w.action * w.LEN_STEP / M_IN_KM

/-- `get_mean_speed`: `Training.get_mean_speed` is
`self.get_distance() / self.duration`; `Swimming` overrides it with
`self.length_pool * self.count_pool / self.M_IN_KM / self.duration`.
The division by `duration` may raise `ZeroDivisionError`. -/
def get_mean_speed : Workout → Except PyExc ℚ
  | .swimming _ d _ lp cp => pyDiv (lp * cp / M_IN_KM) d
  | w => pyDiv w.get_distance w.duration

end Workout

namespace Running

/-- Class attribute `Running.CALORIES_RUNNING_MULTIPLIER = 18`. -/
def CALORIES_RUNNING_MULTIPLIER : ℚ := 18

/-- Class attribute `Running.CALORIES_RUNNING_SHIFT = 1.79`. -/
def CALORIES_RUNNING_SHIFT : ℚ := 1.79

end Running

namespace SportsWalking

/-- Class attribute `SportsWalking.CALORIES_WEIGHT_MULTIPLIER = 0.035`. -/
def CALORIES_WEIGHT_MULTIPLIER : ℚ := 0.035

/-- Class attribute `SportsWalking.CALORIES_SPEED_HEIGHT_MULTIPLIER = 0.029`. -/
def CALORIES_SPEED_HEIGHT_MULTIPLIER : ℚ := 0.029

/-- Class attribute `SportsWalking.KMH_IN_MSEC = 0.278`. -/
def KMH_IN_MSEC : ℚ := 0.278

/-- Class attribute `SportsWalking.CM_IN_M = 100`. -/
def CM_IN_M : ℚ := 100

end SportsWalking

namespace Swimming

/-- Class attribute `Swimming.CALORIES_MEAN_SPEED_SHIFT = 1.1`. -/
def CALORIES_MEAN_SPEED_SHIFT : ℚ := 1.1

/-- Class attribute `Swimming.CALORIES_WEIGHT_MULTIPLIER = 2`. -/
def CALORIES_WEIGHT_MULTIPLIER : ℚ := 2

end Swimming

namespace Workout

/-- `get_spent_calories`, dispatched on the variant:
* `Training.get_spent_calories` raises `NotImplementedError`;
* `Running`: `(18 * mean_speed + 1.79) * weight / M_IN_KM * (duration * MIN_IN_H)`;
* `SportsWalking`: `(0.035 * weight + (mean_speed * 0.278) ** 2 / (height / CM_IN_M)
  * 0.029 * weight) * (duration * MIN_IN_H)` — the division by `height / 100`
  is a runtime division, embedded with `pyDiv`;
* `Swimming`: `(mean_speed + 1.1) * 2 * weight * duration`. -/
def get_spent_calories : Workout → Except PyExc ℚ
  | .training _ _ _ => .error .notImplementedError
  | .running a d wt => do
      let ms ← get_mean_speed (.running a d wt)
      pure ((Running.CALORIES_RUNNING_MULTIPLIER * ms
              + Running.CALORIES_RUNNING_SHIFT)
            * wt / M_IN_KM * (d * MIN_IN_H))
  | .sportsWalking a d wt h => do
      let ms ← get_mean_speed (.sportsWalking a d wt h)
      let sq ← pyDiv ((ms * SportsWalking.KMH_IN_MSEC) ^ 2)
                 (h / SportsWalking.CM_IN_M)
      pure ((SportsWalking.CALORIES_WEIGHT_MULTIPLIER * wt
              + sq * SportsWalking.CALORIES_SPEED_HEIGHT_MULTIPLIER * wt)
            * (d * MIN_IN_H))
  | .swimming a d wt lp cp => do
      let ms ← get_mean_speed (.swimming a d wt lp cp)
      pure ((ms + Swimming.CALORIES_MEAN_SPEED_SHIFT)
            * Swimming.CALORIES_WEIGHT_MULTIPLIER * wt * d)

/-- `type(self).__name__`, as used by `show_training_info`. -/
def typeName : Workout → String
  | .training _ _ _ => "Training"
  | .running _ _ _ => "Running"
  | .sportsWalking _ _ _ _ => "SportsWalking"
  | .swimming _ _ _ _ _ => "Swimming"

end Workout

/-- Dataclass `InfoMessage`. -/
structure InfoMessage where
  training_type : String
  duration : ℚ
  distance : ℚ
  speed : ℚ
  calories : ℚ
deriving DecidableEq, Repr

/-- `Training.show_training_info`: builds the `InfoMessage` from the class
name, duration, distance, mean speed and spent calories. -/
def Workout.show_training_info (w : Workout) : Except PyExc InfoMessage := do
  let ms ← w.get_mean_speed
  let cal ← w.get_spent_calories
  pure ⟨w.typeName, w.duration, w.get_distance, ms, cal⟩

/-- Python fixed-point formatting `:.3f` for a rational: sign, integer part,
a point, then exactly the three digits of the value rounded to 3 decimals.
(Python rounds the nearest binary double half-to-even; the rounding mode is
immaterial here — only the shape of the output is at stake.) -/
def formatFixed3 (q : ℚ) : String :=
  let sign : String := if q < 0 then "-" else ""
  let n : ℤ := round (|q| * 1000)
  let fp : ℕ := (n % 1000).toNat
  sign ++ toString (n / 1000) ++ "." ++
    String.mk [Nat.digitChar (fp / 100), Nat.digitChar (fp / 10 % 10),
               Nat.digitChar (fp % 10)]

/-- `InfoMessage.get_message`: the f-string
`Тип тренировки: ...; Длительность: ...; Дистанция: ...; Ср. скорость: ...;
Потрачено ккал: ....` with every numeric field formatted `:.3f`. -/
def InfoMessage.get_message (m : InfoMessage) : String :=
  "Тип тренировки: " ++ m.training_type ++ "; " ++
  "Длительность: " ++ formatFixed3 m.duration ++ " ч.; " ++
  "Дистанция: " ++ formatFixed3 m.distance ++ " км; " ++
  "Ср. скорость: " ++ formatFixed3 m.speed ++ " км/ч; " ++
  "Потрачено ккал: " ++ formatFixed3 m.calories ++ "."

/-- Number of characters after the last `.` of a string (the decimal
digits of a fixed-point numeral). -/
def fracDigitCount (s : String) : ℕ :=
  (s.data.reverse.takeWhile (fun c => c != '.')).length

/-- `Running(*data)`: positional application of the constructor
`Running.__init__(action, duration, weight)`; a wrong argument count is a
`TypeError`. -/
def applyRunning : List ℚ → Except PyExc Workout
  | [a, d, w] => .ok (.running a d w)
  | _ => .error (.typeError "Running takes 3 positional arguments")

/-- `SportsWalking(*data)`: positional application of
`SportsWalking.__init__(action, duration, weight, height)`. -/
def applySportsWalking : List ℚ → Except PyExc Workout
  | [a, d, w, h] => .ok (.sportsWalking a d w h)
  | _ => .error (.typeError "SportsWalking takes 4 positional arguments")

/-- `Swimming(*data)`: positional application of
`Swimming.__init__(action, duration, weight, length_pool, count_pool)`. -/
def applySwimming : List ℚ → Except PyExc Workout
  | [a, d, w, lp, cp] => .ok (.swimming a d w lp cp)
  | _ => .error (.typeError "Swimming takes 5 positional arguments")

/-- The dispatch dictionary `WORKOUT_TYPES`. -/
def WORKOUT_TYPES : List (String × (List ℚ → Except PyExc Workout)) :=
  [("RUN", applyRunning), ("WLK", applySportsWalking), ("SWM", applySwimming)]

/-- `read_package`: `WORKOUT_TYPES[workout_type](*data)`; a `KeyError`
(unknown code) or `TypeError` (constructor arity mismatch) is caught and
re-raised as `InvalidInputDataError` wrapping the cause. -/
def read_package (workout_type : String) (data : List ℚ) :
    Except PyExc Workout :=
  match WORKOUT_TYPES.lookup workout_type with
  | none => .error (.invalidInputDataError (.keyError workout_type))
  | some ctor =>
    match ctor data with
    | .ok t => .ok t
    | .error e => .error (.invalidInputDataError e)

/-! ### Evaluation lemmas shared by several theorems -/

lemma pyDiv_eq_ok (a b : ℚ) (hb : b ≠ 0) : pyDiv a b = .ok (a / b) := by
  simp [pyDiv, hb]

lemma pyDiv_eq_err (a : ℚ) : pyDiv a 0 = .error .zeroDivisionError := by
  simp [pyDiv]

lemma running_mean_speed_eval (a d w : ℚ) (hd : d ≠ 0) :
    Workout.get_mean_speed (.running a d w) = .ok (a * 0.65 / 1000 / d) := by
  simp [Workout.get_mean_speed, Workout.get_distance, Workout.LEN_STEP,
        Workout.M_IN_KM, Workout.action, Workout.duration, pyDiv_eq_ok, hd]

lemma running_calories_eval (a d w : ℚ) (hd : d ≠ 0) :
    Workout.get_spent_calories (.running a d w) =
      .ok ((18 * (a * 0.65 / 1000 / d) + 1.79) * w / 1000 * (d * 60)) := by
  simp [Workout.get_spent_calories, running_mean_speed_eval a d w hd,
        Except.bind, Bind.bind, Running.CALORIES_RUNNING_MULTIPLIER,
        Running.CALORIES_RUNNING_SHIFT, Workout.M_IN_KM, Workout.MIN_IN_H,
        pure, Except.pure]

lemma walking_mean_speed_eval (a d w h : ℚ) (hd : d ≠ 0) :
    Workout.get_mean_speed (.sportsWalking a d w h) =
      .ok (a * 0.65 / 1000 / d) := by
  simp [Workout.get_mean_speed, Workout.get_distance, Workout.LEN_STEP,
        Workout.M_IN_KM, Workout.action, Workout.duration, pyDiv_eq_ok, hd]

lemma walking_calories_eval (a d w h : ℚ) (hd : d ≠ 0) (hh : h ≠ 0) :
    Workout.get_spent_calories (.sportsWalking a d w h) =
      .ok ((0.035 * w
            + (a * 0.65 / 1000 / d * 0.278) ^ 2 / (h / 100) * 0.029 * w)
           * (d * 60)) := by
  have hh100 : h / 100 ≠ 0 := by
    simp [div_eq_zero_iff, hh]
  simp [Workout.get_spent_calories, walking_mean_speed_eval a d w h hd,
        Except.bind, Bind.bind, SportsWalking.CALORIES_WEIGHT_MULTIPLIER,
        SportsWalking.CALORIES_SPEED_HEIGHT_MULTIPLIER,
        SportsWalking.KMH_IN_MSEC, SportsWalking.CM_IN_M,
        Workout.MIN_IN_H, pyDiv_eq_ok _ _ hh100, pure, Except.pure]

lemma swimming_mean_speed_eval (a d w lp cp : ℚ) (hd : d ≠ 0) :
    Workout.get_mean_speed (.swimming a d w lp cp) =
      .ok (lp * cp / 1000 / d) := by
  simp [Workout.get_mean_speed, Workout.M_IN_KM, pyDiv_eq_ok, hd]

lemma swimming_calories_eval (a d w lp cp : ℚ) (hd : d ≠ 0) :
    Workout.get_spent_calories (.swimming a d w lp cp) =
      .ok ((lp * cp / 1000 / d + 1.1) * 2 * w * d) := by
  simp [Workout.get_spent_calories, swimming_mean_speed_eval a d w lp cp hd,
        Except.bind, Bind.bind, Swimming.CALORIES_MEAN_SPEED_SHIFT,
        Swimming.CALORIES_WEIGHT_MULTIPLIER, pure, Except.pure]

/-! ### Case lemmas for the factory `read_package` -/

lemma applyRunning_err (data : List ℚ) (h : data.length ≠ 3) :
    applyRunning data =
      .error (.typeError "Running takes 3 positional arguments") := by
  rcases data with _ | ⟨x, (_ | ⟨y, (_ | ⟨z, (_ | ⟨u, rest⟩)⟩)⟩)⟩
  · rfl
  · rfl
  · rfl
  · simp at h
  · rfl

lemma applySportsWalking_err (data : List ℚ) (h : data.length ≠ 4) :
    applySportsWalking data =
      .error (.typeError "SportsWalking takes 4 positional arguments") := by
  rcases data with _ | ⟨x, (_ | ⟨y, (_ | ⟨z, (_ | ⟨u, (_ | ⟨v, rest⟩)⟩)⟩)⟩)⟩
  · rfl
  · rfl
  · rfl
  · rfl
  · simp at h
  · rfl

lemma applySwimming_err (data : List ℚ) (h : data.length ≠ 5) :
    applySwimming data =
      .error (.typeError "Swimming takes 5 positional arguments") := by
  rcases data with _ | ⟨x, (_ | ⟨y, (_ | ⟨z, (_ | ⟨u, (_ | ⟨v, (_ | ⟨s, rest⟩)⟩)⟩)⟩)⟩)⟩
  · rfl
  · rfl
  · rfl
  · rfl
  · rfl
  · simp at h
  · rfl

lemma read_package_eq_RUN (data : List ℚ) :
    read_package "RUN" data =
      match applyRunning data with
      | .ok t => .ok t
      | .error e => .error (.invalidInputDataError e) := rfl

lemma read_package_eq_WLK (data : List ℚ) :
    read_package "WLK" data =
      match applySportsWalking data with
      | .ok t => .ok t
      | .error e => .error (.invalidInputDataError e) := rfl

lemma read_package_eq_SWM (data : List ℚ) :
    read_package "SWM" data =
      match applySwimming data with
      | .ok t => .ok t
      | .error e => .error (.invalidInputDataError e) := rfl

lemma read_package_eq_other (wt : String) (data : List ℚ)
    (h1 : wt ≠ "RUN") (h2 : wt ≠ "WLK") (h3 : wt ≠ "SWM") :
    read_package wt data =
      .error (.invalidInputDataError (.keyError wt)) := by
  have e1 : (wt == "RUN") = false := beq_eq_false_iff_ne.mpr h1
  have e2 : (wt == "WLK") = false := beq_eq_false_iff_ne.mpr h2
  have e3 : (wt == "SWM") = false := beq_eq_false_iff_ne.mpr h3
  simp [read_package, WORKOUT_TYPES, List.lookup, e1, e2, e3]

lemma applyRunning_ok_of_len (data : List ℚ) (h : data.length = 3) :
    ∃ t, applyRunning data = .ok t := by
  rcases List.length_eq_three.mp h with ⟨a, b, c, rfl⟩
  exact ⟨_, rfl⟩

lemma applySportsWalking_ok_of_len (data : List ℚ) (h : data.length = 4) :
    ∃ t, applySportsWalking data = .ok t := by
  rcases data with _ | ⟨a, (_ | ⟨b, (_ | ⟨c, (_ | ⟨d, (_ | ⟨e, t⟩)⟩)⟩)⟩)⟩
  · simp at h
  · simp at h
  · simp at h
  · simp at h
  · exact ⟨_, rfl⟩
  · simp at h

lemma applySwimming_ok_of_len (data : List ℚ) (h : data.length = 5) :
    ∃ t, applySwimming data = .ok t := by
  rcases data with _ | ⟨a, (_ | ⟨b, (_ | ⟨c, (_ | ⟨d, (_ | ⟨e, (_ | ⟨f, t⟩)⟩)⟩)⟩)⟩)⟩
  · simp at h
  · simp at h
  · simp at h
  · simp at h
  · simp at h
  · exact ⟨_, rfl⟩
  · simp at h

lemma read_package_error_wrapped (wt : String) (data : List ℚ) (e : PyExc)
    (h : read_package wt data = .error e) :
    ∃ c, e = .invalidInputDataError c := by
  unfold read_package at h
  rcases hl : List.lookup wt WORKOUT_TYPES with _ | ctor
  · rw [hl] at h
    simp at h
    exact ⟨_, h.symm⟩
  · rw [hl] at h
    replace h :
        (match ctor data with
          | .ok t => (.ok t : Except PyExc Workout)
          | .error e0 => .error (.invalidInputDataError e0)) = .error e := h
    rcases ha : ctor data with e0 | t
    · rw [ha] at h
      simp at h
      exact ⟨e0, h.symm⟩
    · rw [ha] at h
      simp at h

lemma read_package_RUN_error_iff (data : List ℚ) :
    (∃ e, read_package "RUN" data = .error (.invalidInputDataError e)) ↔
      data.length ≠ 3 := by
  constructor
  · rintro ⟨e, he⟩ hlen
    obtain ⟨t, ht⟩ := applyRunning_ok_of_len data hlen
    rw [read_package_eq_RUN, ht] at he
    simp at he
  · intro hlen
    exact ⟨.typeError "Running takes 3 positional arguments",
      by rw [read_package_eq_RUN, applyRunning_err data hlen]⟩

lemma read_package_WLK_error_iff (data : List ℚ) :
    (∃ e, read_package "WLK" data = .error (.invalidInputDataError e)) ↔
      data.length ≠ 4 := by
  constructor
  · rintro ⟨e, he⟩ hlen
    obtain ⟨t, ht⟩ := applySportsWalking_ok_of_len data hlen
    rw [read_package_eq_WLK, ht] at he
    simp at he
  · intro hlen
    exact ⟨.typeError "SportsWalking takes 4 positional arguments",
      by rw [read_package_eq_WLK, applySportsWalking_err data hlen]⟩

lemma read_package_SWM_error_iff (data : List ℚ) :
    (∃ e, read_package "SWM" data = .error (.invalidInputDataError e)) ↔
      data.length ≠ 5 := by
  constructor
  · rintro ⟨e, he⟩ hlen
    obtain ⟨t, ht⟩ := applySwimming_ok_of_len data hlen
    rw [read_package_eq_SWM, ht] at he
    simp at he
  · intro hlen
    exact ⟨.typeError "Swimming takes 5 positional arguments",
      by rw [read_package_eq_SWM, applySwimming_err data hlen]⟩

/-! ### Lemmas on the fixed-point formatter -/

lemma digitChar_ne_dot : ∀ k : ℕ, k < 10 → (Nat.digitChar k != '.') = true := by
  decide

lemma strData_append (a b : String) : (a ++ b).data = a.data ++ b.data := rfl

lemma strData_mk (l : List Char) : (String.mk l).data = l := rfl

lemma fracDigitCount_eq_three (s t : String) (c1 c2 c3 : Char)
    (h1 : (c1 != '.') = true) (h2 : (c2 != '.') = true)
    (h3 : (c3 != '.') = true)
    (hs : s.data = t.data ++ '.' :: [c1, c2, c3]) : fracDigitCount s = 3 := by
  unfold fracDigitCount
  rw [hs]
  simp [List.reverse_append, List.takeWhile_cons, h1, h2, h3]

lemma fracDigitCount_formatFixed3 (q : ℚ) :
    fracDigitCount (formatFixed3 q) = 3 := by
  have hmod : (round (|q| * 1000) % 1000).toNat < 1000 := by
    have h1 : 0 ≤ round (|q| * 1000) % 1000 :=
      Int.emod_nonneg _ (by norm_num)
    have h2 : round (|q| * 1000) % 1000 < 1000 :=
      Int.emod_lt_of_pos _ (by norm_num)
    omega
  refine fracDigitCount_eq_three (formatFixed3 q)
    ((if q < 0 then "-" else "") ++ toString (round (|q| * 1000) / 1000))
    (Nat.digitChar ((round (|q| * 1000) % 1000).toNat / 100))
    (Nat.digitChar ((round (|q| * 1000) % 1000).toNat / 10 % 10))
    (Nat.digitChar ((round (|q| * 1000) % 1000).toNat % 10))
    (digitChar_ne_dot _ (by omega)) (digitChar_ne_dot _ (by omega))
    (digitChar_ne_dot _ (by omega)) ?_
  unfold formatFixed3
  simp [strData_append, strData_mk]

/-! ### Claim theorems -/

/-- C1: for every recognized type code (`RUN`, `WLK`, `SWM`) with a matching
argument list, `read_package` returns the corresponding variant; it raises
`InvalidInputDataError` exactly when the type code is unrecognized or the
argument count does not match the variant's constructor signature, and the
raised error wraps the underlying cause (`KeyError` or `TypeError`). -/
theorem read_package_invalid_input :
    (∀ a d w : ℚ, read_package "RUN" [a, d, w] = .ok (.running a d w)) ∧
    (∀ a d w h : ℚ,
      read_package "WLK" [a, d, w, h] = .ok (.sportsWalking a d w h)) ∧
    (∀ a d w lp cp : ℚ,
      read_package "SWM" [a, d, w, lp, cp] = .ok (.swimming a d w lp cp)) ∧
    (∀ (wt : String) (data : List ℚ), wt ≠ "RUN" → wt ≠ "WLK" → wt ≠ "SWM" →
      read_package wt data = .error (.invalidInputDataError (.keyError wt))) ∧
    (∀ (wt : String) (data : List ℚ) (e : PyExc),
      read_package wt data = .error e → ∃ c, e = .invalidInputDataError c) ∧
    (∀ (wt : String) (data : List ℚ),
      (∃ e, read_package wt data = .error (.invalidInputDataError e)) ↔
        ((wt ≠ "RUN" ∧ wt ≠ "WLK" ∧ wt ≠ "SWM") ∨
         (wt = "RUN" ∧ data.length ≠ 3) ∨
         (wt = "WLK" ∧ data.length ≠ 4) ∨
         (wt = "SWM" ∧ data.length ≠ 5))) := by
  refine ⟨fun a d w => rfl, fun a d w h => rfl, fun a d w lp cp => rfl,
    fun wt data h1 h2 h3 => read_package_eq_other wt data h1 h2 h3,
    fun wt data e h => read_package_error_wrapped wt data e h,
    fun wt data => ?_⟩
  by_cases h1 : wt = "RUN"
  · subst h1
    rw [read_package_RUN_error_iff]
    constructor
    · intro hlen
      exact Or.inr (Or.inl ⟨rfl, hlen⟩)
    · rintro (⟨hne, _⟩ | ⟨_, hlen⟩ | ⟨heq, _⟩ | ⟨heq, _⟩)
      · exact absurd rfl hne
      · exact hlen
      · exact absurd heq (by decide)
      · exact absurd heq (by decide)
  · by_cases h2 : wt = "WLK"
    · subst h2
      rw [read_package_WLK_error_iff]
      constructor
      · intro hlen
        exact Or.inr (Or.inr (Or.inl ⟨rfl, hlen⟩))
      · rintro (⟨_, hne, _⟩ | ⟨heq, _⟩ | ⟨_, hlen⟩ | ⟨heq, _⟩)
        · exact absurd rfl hne
        · exact absurd heq (by decide)
        · exact hlen
        · exact absurd heq (by decide)
    · by_cases h3 : wt = "SWM"
      · subst h3
        rw [read_package_SWM_error_iff]
        constructor
        · intro hlen
          exact Or.inr (Or.inr (Or.inr ⟨rfl, hlen⟩))
        · rintro (⟨_, _, hne⟩ | ⟨heq, _⟩ | ⟨heq, _⟩ | ⟨_, hlen⟩)
          · exact absurd rfl hne
          · exact absurd heq (by decide)
          · exact absurd heq (by decide)
          · exact hlen
      · constructor
        · intro _
          exact Or.inl ⟨h1, h2, h3⟩
        · intro _
          exact ⟨.keyError wt, read_package_eq_other wt data h1 h2 h3⟩

/-- C1 witness: a well-formed `RUN` package is built, the unknown code
`XYZ` and a `RUN` package with 2 arguments raise `InvalidInputDataError`. -/
theorem read_package_invalid_input_witness :
    read_package "RUN" [(15000 : ℚ), 1, 75] = .ok (.running 15000 1 75) ∧
    read_package "XYZ" [(1 : ℚ), 2, 3] =
      .error (.invalidInputDataError (.keyError "XYZ")) ∧
    (∃ e, read_package "RUN" [(1 : ℚ), 2] =
      .error (.invalidInputDataError e)) := by
  have h := read_package_invalid_input
  refine ⟨h.1 15000 1 75,
    h.2.2.2.1 "XYZ" [1, 2, 3] (by decide) (by decide) (by decide), ?_⟩
  exact (h.2.2.2.2.2 "RUN" [1, 2]).mpr (Or.inr (Or.inl ⟨rfl, by decide⟩))

/-- C2: for every `Running` workout with positive duration, the spent
calories are `((18 * mean_speed + 1.79) * weight / 1000) * (duration * 60)`
with `mean_speed = action * 0.65 / 1000 / duration`. -/
theorem running_calories_spec (a d w : ℚ) (hd : 0 < d) :
    Workout.get_spent_calories (.running a d w) =
      .ok ((18 * (a * 0.65 / 1000 / d) + 1.79) * w / 1000 * (d * 60)) :=
  running_calories_eval a d w (ne_of_gt hd)

/-- C2 witness: the formula evaluated at `action=15000, duration=1,
weight=75`. -/
theorem running_calories_spec_witness :
    0 < (1 : ℚ) ∧
    Workout.get_spent_calories (.running 15000 1 75) =
      .ok ((18 * (15000 * 0.65 / 1000 / 1) + 1.79) * 75 / 1000 * (1 * 60)) :=
  ⟨by norm_num, running_calories_spec 15000 1 75 (by norm_num)⟩

/-- C3: `Swimming` overrides the mean speed to
`length_pool * count_pool / 1000 / duration`, ignoring the generic
step-based distance, and its calories are `(mean_speed + 1.1) * 2 * weight *
duration`. -/
theorem swimming_mean_speed_spec (a d w lp cp : ℚ) (hd : 0 < d) :
    Workout.get_mean_speed (.swimming a d w lp cp) =
      .ok (lp * cp / 1000 / d) ∧
    Workout.get_spent_calories (.swimming a d w lp cp) =
      .ok ((lp * cp / 1000 / d + 1.1) * 2 * w * d) :=
  ⟨swimming_mean_speed_eval a d w lp cp (ne_of_gt hd),
   swimming_calories_eval a d w lp cp (ne_of_gt hd)⟩

/-- C3 witness: at `action=720, duration=1, weight=80, pool=25, laps=40`
the mean speed is `1.0` and the calories are `336.0`. -/
theorem swimming_mean_speed_spec_witness :
    0 < (1 : ℚ) ∧
    Workout.get_mean_speed (.swimming 720 1 80 25 40) = .ok 1 ∧
    Workout.get_spent_calories (.swimming 720 1 80 25 40) = .ok 336 := by
  have h := swimming_mean_speed_spec 720 1 80 25 40 (by norm_num)
  refine ⟨by norm_num, ?_, ?_⟩
  · rw [h.1]
    norm_num
  · rw [h.2]
    norm_num

/-- C4 counterexample: at `action=9000, duration=1, weight=75, height=180`
the walking calories are exactly `349.251747525`, more than 185 away from
the claimed `163.97`. -/
theorem walking_example_calories_ne_163_97 :
    Workout.get_spent_calories (.sportsWalking 9000 1 75 180) =
      .ok (349251747525 / 1000000000) ∧
    (185 : ℚ) < |(349251747525 / 1000000000 : ℚ) - 163.97| := by
  constructor
  · rw [walking_calories_eval 9000 1 75 180 (by norm_num) (by norm_num)]
    norm_num
  · rw [abs_of_pos (by norm_num)]
    norm_num

/-- C4 amended: at `action=9000, duration=1, weight=75, height=180` the
distance is `5.85`, the mean speed is `5.85`, and the walking-formula
calories are exactly `349.251747525` (approximately `349.25`). -/
theorem walking_example_calories_exact :
    Workout.get_distance (.sportsWalking 9000 1 75 180) = 5.85 ∧
    Workout.get_mean_speed (.sportsWalking 9000 1 75 180) = .ok 5.85 ∧
    Workout.get_spent_calories (.sportsWalking 9000 1 75 180) =
      .ok (349251747525 / 1000000000) := by
  refine ⟨?_, ?_, ?_⟩
  · simp [Workout.get_distance, Workout.LEN_STEP, Workout.M_IN_KM,
          Workout.action]
    norm_num
  · rw [walking_mean_speed_eval 9000 1 75 180 (by norm_num)]
    norm_num
  · rw [walking_calories_eval 9000 1 75 180 (by norm_num) (by norm_num)]
    norm_num

/-- C5 counterexample: at `action=15000, duration=1, weight=75` the running
calories are exactly `797.805`, more than 6 away from the claimed
`790.92`. -/
theorem running_example_calories_ne_790_92 :
    Workout.get_spent_calories (.running 15000 1 75) = .ok (797805 / 1000) ∧
    (6 : ℚ) < |(797805 / 1000 : ℚ) - 790.92| := by
  constructor
  · rw [running_calories_eval 15000 1 75 (by norm_num)]
    norm_num
  · rw [abs_of_pos (by norm_num)]
    norm_num

/-- C5 amended: at `action=15000, duration=1, weight=75` the distance is
`9.75`, the mean speed is `9.75`, and the calories
`(18 * 9.75 + 1.79) * 75 / 1000 * 60` are exactly `797.805`. -/
theorem running_example_calories_exact :
    Workout.get_distance (.running 15000 1 75) = 9.75 ∧
    Workout.get_mean_speed (.running 15000 1 75) = .ok 9.75 ∧
    (18 * (9.75 : ℚ) + 1.79) * 75 / 1000 * 60 = 797.805 ∧
    Workout.get_spent_calories (.running 15000 1 75) = .ok 797.805 := by
  refine ⟨?_, ?_, by norm_num, ?_⟩
  · simp [Workout.get_distance, Workout.LEN_STEP, Workout.M_IN_KM,
          Workout.action]
    norm_num
  · rw [running_mean_speed_eval 15000 1 75 (by norm_num)]
    norm_num
  · rw [running_calories_eval 15000 1 75 (by norm_num)]
    norm_num

/-- C6: for every workout with positive action count the distance is
`action * step_length / 1000`, with `step_length = 0.65` for `Running` and
`SportsWalking` and `1.38` for `Swimming`. -/
theorem distance_step_length_spec (a : ℚ) (ha : 0 < a) :
    (∀ d w, Workout.get_distance (.running a d w) = a * 0.65 / 1000) ∧
    (∀ d w h, Workout.get_distance (.sportsWalking a d w h) =
      a * 0.65 / 1000) ∧
    (∀ d w lp cp, Workout.get_distance (.swimming a d w lp cp) =
      a * 1.38 / 1000) := by
  refine ⟨fun d w => ?_, fun d w h => ?_, fun d w lp cp => ?_⟩ <;>
    simp [Workout.get_distance, Workout.LEN_STEP, Workout.M_IN_KM,
          Workout.action]

/-- C6 witness: the swimming distance at `action=720`. -/
theorem distance_step_length_spec_witness :
    0 < (720 : ℚ) ∧
    Workout.get_distance (.swimming 720 1 80 25 40) = 720 * 1.38 / 1000 :=
  ⟨by norm_num, (distance_step_length_spec 720 (by norm_num)).2.2 1 80 25 40⟩

/-- C7: the summary message renders the five fields in the exact order
type; duration; distance; mean speed; calories, each of the four numeric
values with exactly 3 digits after the decimal point. -/
theorem info_message_fields_ordered (m : InfoMessage) :
    ∃ s1 s2 s3 s4 : String,
      m.get_message =
        "Тип тренировки: " ++ m.training_type ++ "; " ++
        "Длительность: " ++ s1 ++ " ч.; " ++
        "Дистанция: " ++ s2 ++ " км; " ++
        "Ср. скорость: " ++ s3 ++ " км/ч; " ++
        "Потрачено ккал: " ++ s4 ++ "." ∧
      fracDigitCount s1 = 3 ∧ fracDigitCount s2 = 3 ∧
      fracDigitCount s3 = 3 ∧ fracDigitCount s4 = 3 :=
  ⟨formatFixed3 m.duration, formatFixed3 m.distance, formatFixed3 m.speed,
   formatFixed3 m.calories, rfl, fracDigitCount_formatFixed3 _,
   fracDigitCount_formatFixed3 _, fracDigitCount_formatFixed3 _,
   fracDigitCount_formatFixed3 _⟩

/-- C8: calling `get_spent_calories` on an unspecialized base `Training`
raises `NotImplementedError`, which is not an instance of the
`InvalidInputDataError` kind. -/
theorem base_training_calories_unimplemented (a d w : ℚ) :
    Workout.get_spent_calories (.training a d w) =
      .error .notImplementedError ∧
    PyExc.isInvalidInputDataError .notImplementedError = false :=
  ⟨rfl, rfl⟩

/-- C9: `get_mean_speed` divides by `duration` with no guard: it raises
`ZeroDivisionError` when the duration is zero, and is total (returns a
value) whenever the duration is positive. -/
theorem mean_speed_zero_duration_guard (w : Workout) :
    (w.duration = 0 → w.get_mean_speed = .error .zeroDivisionError) ∧
    (0 < w.duration → ∃ v, w.get_mean_speed = .ok v) := by
  constructor
  · intro h0
    cases w <;>
      simp_all [Workout.get_mean_speed, Workout.duration, pyDiv_eq_err]
  · intro hpos
    have hne : w.duration ≠ 0 := ne_of_gt hpos
    cases w <;>
      exact ⟨_, pyDiv_eq_ok _ _ hne⟩

/-- C9 witness: a zero-duration run raises `ZeroDivisionError`; a
positive-duration swim returns a speed. -/
theorem mean_speed_zero_duration_guard_witness :
    ((Workout.running 1 0 2).duration = 0 ∧
      (Workout.running 1 0 2).get_mean_speed = .error .zeroDivisionError) ∧
    (0 < (Workout.swimming 720 1 80 25 40).duration ∧
      ∃ v, (Workout.swimming 720 1 80 25 40).get_mean_speed = .ok v) := by
  constructor
  · exact ⟨rfl, (mean_speed_zero_duration_guard _).1 rfl⟩
  · refine ⟨?_, (mean_speed_zero_duration_guard _).2 ?_⟩ <;>
      · show (0 : ℚ) < 1
        norm_num

/-- C10: the identity `distance = mean_speed * duration` holds for every
`Running` and `SportsWalking` workout with positive duration, but fails for
some `Swimming` input (at `action=720, duration=1, pool=25, laps=40` the
distance is `0.9936` while `mean_speed * duration` is `1`). -/
theorem distance_speed_identity_except_swimming (a d w h : ℚ) (hd : 0 < d) :
    (∃ v, Workout.get_mean_speed (.running a d w) = .ok v ∧
      Workout.get_distance (.running a d w) = v * d) ∧
    (∃ v, Workout.get_mean_speed (.sportsWalking a d w h) = .ok v ∧
      Workout.get_distance (.sportsWalking a d w h) = v * d) ∧
    (∃ v, Workout.get_mean_speed (.swimming 720 1 80 25 40) = .ok v ∧
      Workout.get_distance (.swimming 720 1 80 25 40) ≠
        v * (Workout.swimming 720 1 80 25 40).duration) := by
  have hne := ne_of_gt hd
  refine ⟨⟨a * 0.65 / 1000 / d, running_mean_speed_eval a d w hne, ?_⟩,
          ⟨a * 0.65 / 1000 / d, walking_mean_speed_eval a d w h hne, ?_⟩,
          ⟨1, ?_, ?_⟩⟩
  · simp [Workout.get_distance, Workout.LEN_STEP, Workout.M_IN_KM,
          Workout.action]
    field_simp
    ring
  · simp [Workout.get_distance, Workout.LEN_STEP, Workout.M_IN_KM,
          Workout.action]
    field_simp
    ring
  · rw [swimming_mean_speed_eval 720 1 80 25 40 (by norm_num)]
    norm_num
  · simp [Workout.get_distance, Workout.LEN_STEP, Workout.M_IN_KM,
          Workout.action, Workout.duration]
    norm_num

/-- C10 witness: the identity instantiated for the running package. -/
theorem distance_speed_identity_except_swimming_witness :
    0 < (1 : ℚ) ∧
    (∃ v, Workout.get_mean_speed (.running 15000 1 75) = .ok v ∧
      Workout.get_distance (.running 15000 1 75) = v * 1) :=
  ⟨by norm_num,
   (distance_speed_identity_except_swimming 15000 1 75 180 (by norm_num)).1⟩
